import Mathlib

/-!
Verification development for the job/candidate matching engine.

The definitions below are a shallow embedding of the Python source:
  * `src/domain/value_objects.py`  — `SeniorityLevel`, `Seniority`, `Salary`, `Skill`
  * `src/domain/models.py`         — `Job`, `Candidate` and their predicates
  * `src/domain/services.py`       — `MatchingService.calculate_job_candidate_match`
  * `src/application/services.py`  — `MatchingApplicationService.find_matches`
  * `src/infrastructure/mappers.py`— `JobMapper`, `CandidateMapper`
  * `src/infrastructure/repositories.py` and
    `src/infrastructure/elasticsearch_service.py` — query construction

Python floats are modelled by `ℚ` (all arithmetic in scope is exact small
rationals), Python `None`-able attributes by `Option`, dictionary keys that
may be absent by an outer `Option` (with an inner `Option` for a present key
holding `None`), and raising code by `Except String`.
-/

namespace Instaffo

/-- Decidable equality for `Except` results, so concrete runs can be checked
by `decide`. -/
instance instDecEqExcept {ε α : Type} [DecidableEq ε] [DecidableEq α] :
    DecidableEq (Except ε α) := fun x y =>
  match x, y with
  | .ok a, .ok b =>
      if h : a = b then .isTrue (by simp [h]) else .isFalse (by simp [h])
  | .ok _, .error _ => .isFalse (by simp)
  | .error _, .ok _ => .isFalse (by simp)
  | .error e, .error f =>
      if h : e = f then .isTrue (by simp [h]) else .isFalse (by simp [h])

/-- Python `str.lower()` (ASCII case folding), defined structurally over the
character list so that it evaluates inside the kernel. -/
def lowerStr (s : String) : String :=
  String.mk (s.data.map Char.toLower)

/-- Python `str.strip()`: drop leading and trailing whitespace, defined
structurally over the character list. -/
def stripStr (s : String) : String :=
  String.mk (((s.data.dropWhile Char.isWhitespace).reverse.dropWhile
    Char.isWhitespace).reverse)

/-- `SeniorityLevel` enum from `src/domain/value_objects.py`. -/
inductive SeniorityLevel where
  | NONE
  | JUNIOR
  | MIDLEVEL
  | SENIOR
  | LEAD
  | PRINCIPAL
deriving DecidableEq, Repr

/-- The `value` string of each enum member. -/
def SeniorityLevel.value : SeniorityLevel → String
  | .NONE => "none"
  | .JUNIOR => "junior"
  | .MIDLEVEL => "midlevel"
  | .SENIOR => "senior"
  | .LEAD => "lead"
  | .PRINCIPAL => "principal"

/-- Iteration order of the enum members (Python `for level in SeniorityLevel`). -/
def SeniorityLevel.all : List SeniorityLevel :=
  [.NONE, .JUNIOR, .MIDLEVEL, .SENIOR, .LEAD, .PRINCIPAL]

/-- Frozen dataclass `Seniority` wrapping a level. -/
structure Seniority where
  level : SeniorityLevel
deriving DecidableEq, Repr

/-- `Seniority.from_string`: `SeniorityLevel(seniority_str.lower())`, with the
`ValueError` branch listing the valid levels. -/
def Seniority.fromString (s : String) : Except String Seniority :=
  match SeniorityLevel.all.find? (fun l => l.value == lowerStr s) with
  | Option.some l => Except.ok ⟨l⟩
  | Option.none =>
      Except.error ("Invalid seniority level: " ++ s ++ ". Valid levels are: "
        ++ String.intercalate ", " (SeniorityLevel.all.map SeniorityLevel.value))

/-- Frozen dataclass `Salary` (value `int`, validated non-negative). -/
structure Salary where
  value : Int
deriving DecidableEq, Repr

/-- `Salary.__post_init__`: raises `ValueError` on a negative value. -/
def mkSalary (v : Int) : Except String Salary :=
  if v < 0 then Except.error "Salary cannot be negative" else Except.ok ⟨v⟩

/-- `Salary(doc[field])` when the dictionary value may be `None`: Python
evaluates `None < 0` and raises `TypeError`. -/
def salaryFromField (v : Option Int) : Except String Salary :=
  match v with
  | Option.none =>
      Except.error "TypeError: not supported between instances of NoneType and int"
  | Option.some n => mkSalary n

/-- Frozen dataclass `Skill` (name normalized by `strip()` at construction). -/
structure Skill where
  name : String
deriving DecidableEq, Repr

/-- `Skill.__post_init__`: strips the name, raises `ValueError` when empty. -/
def mkSkill (s : String) : Except String Skill :=
  if stripStr s = "" then Except.error "Skill name cannot be empty"
  else Except.ok ⟨stripStr s⟩

/-- `Skill.__eq__`: case-insensitive comparison of the (already stripped) names. -/
def skillEq (a b : Skill) : Bool :=
  lowerStr a.name == lowerStr b.name

/-- The string `hash(self.name.lower())` is computed from; two skills with the
same key have the same Python hash. -/
def skillHashKey (a : Skill) : String :=
  lowerStr a.name

/-- `Job` entity from `src/domain/models.py` (id kept opaque as a string). -/
structure Job where
  id : String
  top_skills : List Skill
  other_skills : List Skill
  seniorities : List Seniority
  max_salary : Option Salary
deriving DecidableEq, Repr

/-- `Candidate` entity from `src/domain/models.py`. -/
structure Candidate where
  id : String
  top_skills : List Skill
  other_skills : List Skill
  seniority : Option Seniority
  salary_expectation : Option Salary
deriving DecidableEq, Repr

/-- Distinct case-insensitive names of a skill list: the Python `set(...)` of
`Skill` values, whose equality and hash are on `name.lower()`. -/
def normNames (l : List Skill) : List String :=
  (l.map (fun s => lowerStr s.name)).dedup

/-- `len(set(A).intersection(set(B)))` for skill lists. -/
def skillInterCard (A B : List Skill) : Nat :=
  ((normNames A).filter (fun n => n ∈ normNames B)).length

/-- `Job.matches_candidate_salary`: false when either side is `None`. -/
def Job.matches_candidate_salary (job : Job) (cexp : Option Salary) : Bool :=
  match job.max_salary, cexp with
  | Option.some m, Option.some e => decide (e.value ≤ m.value)
  | _, _ => false

/-- `Job.matches_candidate_seniority`: false when the job has no seniorities or
the candidate has none; otherwise membership. -/
def Job.matches_candidate_seniority (job : Job) (cs : Option Seniority) : Bool :=
  match cs with
  | Option.none => false
  | Option.some s =>
      if job.seniorities.isEmpty then false else decide (s ∈ job.seniorities)

/-- `Job.skill_match_score`: proportion of the job's top skills present among
the given candidate skills (set intersection over list-length denominator). -/
def Job.skill_match_score (job : Job) (candidate_skills : List Skill) : ℚ :=
  if job.top_skills.isEmpty || candidate_skills.isEmpty then 0
  else (skillInterCard job.top_skills candidate_skills : ℚ) / (job.top_skills.length : ℚ)

/-- `Candidate.skill_match_score`: same ratio with the job's top skills as
denominator and the candidate's combined `top + other` pool as the other side;
returns 0 when the candidate's `top_skills` list is empty. -/
def Candidate.skill_match_score (c : Candidate) (job_top_skills : List Skill) : ℚ :=
  if job_top_skills.isEmpty || c.top_skills.isEmpty then 0
  else (skillInterCard job_top_skills (c.top_skills ++ c.other_skills) : ℚ)
    / (job_top_skills.length : ℚ)

/-- The three boolean filters of a match request (`filters_dict` keys). -/
structure Filters where
  salary_match : Bool
  top_skill_match : Bool
  seniority_match : Bool
deriving DecidableEq, Repr

/-- `MatchingService.calculate_job_candidate_match` from `src/domain/services.py`:
parallel `score_components` / `weights` lists, then the weighted average. -/
def calculate_job_candidate_match (job : Job) (candidate : Candidate)
    (filters : Filters) : ℚ :=
  let score_components : List ℚ :=
    (if filters.top_skill_match then [job.skill_match_score candidate.top_skills] else [])
    ++ (if filters.seniority_match
          && job.matches_candidate_seniority candidate.seniority then [1] else [])
    ++ (if filters.salary_match
          && job.matches_candidate_salary candidate.salary_expectation then [1] else [])
  let weights : List ℚ :=
    (if filters.top_skill_match then [2] else [])
    ++ (if filters.seniority_match
          && job.matches_candidate_seniority candidate.seniority then [3/2] else [])
    ++ (if filters.salary_match
          && job.matches_candidate_salary candidate.salary_expectation then [1] else [])
  if score_components = [] then 0
  else (List.zipWith (fun s w => s * w) score_components weights).sum / weights.sum

/-- `MatchingApplicationService.find_matches` from `src/application/services.py`.
The two repository-backed matchers are passed in as collaborators; the service
first rejects an all-disabled filter set, then dispatches on `doc_type`. -/
def find_matches
    (jobMatcher candMatcher : String → Filters → Except String (List (String × ℚ)))
    (doc_id doc_type : String) (filters : Filters) :
    Except String (List (String × ℚ)) :=
  if !(filters.salary_match || filters.top_skill_match || filters.seniority_match) then
    Except.error "At least one filter must be enabled"
  else if doc_type == "job" then jobMatcher doc_id filters
  else if doc_type == "candidate" then candMatcher doc_id filters
  else Except.error ("Invalid document type: " ++ doc_type)

/-- `config.MIN_MATCHING_SKILLS`. -/
def MIN_MATCHING_SKILLS : Nat := 2

/-- `FILTER_CONFIGS` weight for `top_skill_match`. -/
def FILTER_CONFIGS_top_skill_weight : ℚ := 2

/-- `FILTER_CONFIGS` weight for `seniority_match`. -/
def FILTER_CONFIGS_seniority_weight : ℚ := 3/2

/-- One `should` clause of a constructed Elasticsearch boolean query.
`range` bounds keep an inner `Option` because a present dictionary key can
hold `None` in Python. -/
inductive Clause where
  | range (field op : String) (bound : Option Int)
  | terms (field : String) (values : List String) (boost : ℚ)
      (minimum_should_match : Option Nat)
  | term (field : String) (value : String) (boost : ℚ)
deriving DecidableEq, Repr

/-- Whether a clause is a salary `range` clause. -/
def Clause.isRange : Clause → Bool
  | .range _ _ _ => true
  | _ => false

/-- The `should_queries` list built by
`ElasticsearchJobRepository.find_matches_for_candidate` (source = candidate):
each enabled filter contributes a clause only when the candidate has the
corresponding data, otherwise it is skipped. -/
def candidateShouldQueries (candidate : Candidate) (filters : Filters) : List Clause :=
  (if filters.salary_match then
    match candidate.salary_expectation with
    | Option.some e => [Clause.range "max_salary" "gte" (Option.some e.value)]
    | Option.none => []
  else [])
  ++ (if filters.top_skill_match then
    if candidate.top_skills.isEmpty then []
    else
      [Clause.terms "top_skills" (candidate.top_skills.map Skill.name)
        FILTER_CONFIGS_top_skill_weight
        (Option.some (min (candidate.top_skills.map Skill.name).length MIN_MATCHING_SKILLS))]
  else [])
  ++ (if filters.seniority_match then
    match candidate.seniority with
    | Option.some s => [Clause.term "seniorities" s.level.value FILTER_CONFIGS_seniority_weight]
    | Option.none => []
  else [])

/-- The `should_queries` list built by
`ElasticsearchCandidateRepository.find_matches_for_job` (source = job). -/
def jobShouldQueries (job : Job) (filters : Filters) : List Clause :=
  (if filters.salary_match then
    match job.max_salary with
    | Option.some m => [Clause.range "salary_expectation" "lte" (Option.some m.value)]
    | Option.none => []
  else [])
  ++ (if filters.top_skill_match then
    if job.top_skills.isEmpty then []
    else
      [Clause.terms "top_skills" (job.top_skills.map Skill.name)
        FILTER_CONFIGS_top_skill_weight
        (Option.some (min (job.top_skills.map Skill.name).length MIN_MATCHING_SKILLS))]
  else [])
  ++ (if filters.seniority_match then
    if job.seniorities.isEmpty then []
    else
      [Clause.terms "seniority" (job.seniorities.map (fun s => s.level.value))
        FILTER_CONFIGS_seniority_weight Option.none]
  else [])

/-- `ElasticsearchJobRepository.find_matches_for_candidate`: fetch the source
candidate (`ValueError` when absent), build the clauses, return `[]` when no
clause was built, otherwise the search hits (search collaborator passed in). -/
def find_matches_for_candidate
    (getCandidate : String → Option Candidate)
    (search : List Clause → List (String × ℚ))
    (candidate_id : String) (filters : Filters) :
    Except String (List (String × ℚ)) :=
  match getCandidate candidate_id with
  | Option.none => Except.error ("Candidate with ID " ++ candidate_id ++ " not found")
  | Option.some c =>
      let should_queries := candidateShouldQueries c filters
      if should_queries.isEmpty then Except.ok []
      else Except.ok (search should_queries)

/-- `ElasticsearchCandidateRepository.find_matches_for_job`, symmetric. -/
def find_matches_for_job
    (getJob : String → Option Job)
    (search : List Clause → List (String × ℚ))
    (job_id : String) (filters : Filters) :
    Except String (List (String × ℚ)) :=
  match getJob job_id with
  | Option.none => Except.error ("Job with ID " ++ job_id ++ " not found")
  | Option.some j =>
      let should_queries := jobShouldQueries j filters
      if should_queries.isEmpty then Except.ok []
      else Except.ok (search should_queries)

/-- Elasticsearch document for a job: outer `Option` marks key presence, the
inner `Option` of `max_salary` a present key holding `None`. -/
structure JobDoc where
  top_skills : Option (List String)
  other_skills : Option (List String)
  seniorities : Option (List String)
  max_salary : Option (Option Int)
deriving DecidableEq, Repr

/-- Elasticsearch document for a candidate. -/
structure CandidateDoc where
  top_skills : Option (List String)
  other_skills : Option (List String)
  seniority : Option (Option String)
  salary_expectation : Option (Option Int)
deriving DecidableEq, Repr

/-- `[Skill(name=s) for s in l]`: constructs skills left to right, propagating
the first `ValueError`. -/
def mkSkills : List String → Except String (List Skill)
  | [] => Except.ok []
  | s :: rest => do
      let sk ← mkSkill s
      let sks ← mkSkills rest
      pure (sk :: sks)

/-- `ElasticsearchService._build_salary_query` for a job source document:
`KeyError` on an absent `max_salary` key becomes a `ValueError`. -/
def buildSalaryQueryFromJobDoc (doc : JobDoc) : Except String Clause :=
  match doc.max_salary with
  | Option.none => Except.error "Missing required salary field: max_salary"
  | Option.some b => Except.ok (Clause.range "salary_expectation" "lte" b)

/-- `ElasticsearchService._build_salary_query` for a candidate source document. -/
def buildSalaryQueryFromCandidateDoc (doc : CandidateDoc) : Except String Clause :=
  match doc.salary_expectation with
  | Option.none => Except.error "Missing required salary field: salary_expectation"
  | Option.some b => Except.ok (Clause.range "max_salary" "gte" b)

/-- `ElasticsearchService._build_skills_query`: hard failure on an empty
top-skill list, otherwise a terms clause with threshold
`min(len(top_skills), MIN_MATCHING_SKILLS)`. -/
def buildSkillsQuery (top_skills : List String) : Except String Clause :=
  if top_skills.isEmpty then Except.error "Source document has no top skills"
  else Except.ok (Clause.terms "top_skills" top_skills FILTER_CONFIGS_top_skill_weight
    (Option.some (min top_skills.length MIN_MATCHING_SKILLS)))

namespace JobMapper

/-- `JobMapper.to_domain` from `src/infrastructure/mappers.py`. The document id
is carried through unchanged (entity ids in scope are valid UUID strings, for
which Python's `UUID(doc_id)` round-trips). An unparsable seniority entry is
dropped; an absent salary key yields `None`, a present key is fed to
`Salary(...)`. -/
def to_domain (doc_id : String) (doc : JobDoc) : Except String Job := do
  let top ← mkSkills (doc.top_skills.getD [])
  let other ← mkSkills (doc.other_skills.getD [])
  let sens := (doc.seniorities.getD []).filterMap
    (fun s => (Seniority.fromString s).toOption)
  let msal ← match doc.max_salary with
    | Option.none => pure Option.none
    | Option.some v => Option.some <$> salaryFromField v
  pure { id := doc_id, top_skills := top, other_skills := other,
         seniorities := sens, max_salary := msal }

/-- `JobMapper.to_document`: every key is emitted, an absent salary as `None`. -/
def to_document (job : Job) : JobDoc :=
  { top_skills := Option.some (job.top_skills.map Skill.name)
    other_skills := Option.some (job.other_skills.map Skill.name)
    seniorities := Option.some (job.seniorities.map (fun s => s.level.value))
    max_salary := Option.some (job.max_salary.map Salary.value) }

end JobMapper

namespace CandidateMapper

/-- `CandidateMapper.to_domain`: a present `seniority` key holding `None`
raises (`None.lower()` is an `AttributeError`, not caught by the
`except ValueError`); an unrecognized string is swallowed, leaving `None`. -/
def to_domain (doc_id : String) (doc : CandidateDoc) : Except String Candidate := do
  let top ← mkSkills (doc.top_skills.getD [])
  let other ← mkSkills (doc.other_skills.getD [])
  let sen ← match doc.seniority with
    | Option.none => pure Option.none
    | Option.some Option.none =>
        Except.error "AttributeError: NoneType object has no attribute lower"
    | Option.some (Option.some s) => pure (Seniority.fromString s).toOption
  let msal ← match doc.salary_expectation with
    | Option.none => pure Option.none
    | Option.some v => Option.some <$> salaryFromField v
  pure { id := doc_id, top_skills := top, other_skills := other,
         seniority := sen, salary_expectation := msal }

/-- `CandidateMapper.to_document`: every key is emitted, absent values as `None`. -/
def to_document (c : Candidate) : CandidateDoc :=
  { top_skills := Option.some (c.top_skills.map Skill.name)
    other_skills := Option.some (c.other_skills.map Skill.name)
    seniority := Option.some (c.seniority.map (fun s => s.level.value))
    salary_expectation := Option.some (c.salary_expectation.map Salary.value) }

end CandidateMapper

/-- `config.VALID_SENIORITIES`. -/
def VALID_SENIORITIES : List String :=
  ["none", "junior", "midlevel", "senior", "lead", "principal"]

/-- Spec-side component list for the weighted score, written from the spec's
words: each enabled criterion produces a `(component, weight)` pair — skill
always as the continuous `skillMatchScore`, seniority as `1.0` only when
`matchesSeniority` holds (omitted otherwise), salary as `1.0` only when
`matchesSalary` holds (omitted otherwise). -/
def specComponents (job : Job) (candidate : Candidate) (filters : Filters) :
    List (ℚ × ℚ) :=
  List.reduceOption
    [ (if filters.top_skill_match then
        Option.some (job.skill_match_score candidate.top_skills, 2)
      else Option.none),
      (if filters.seniority_match then
        (if job.matches_candidate_seniority candidate.seniority then
          Option.some (1, 3/2)
        else Option.none)
      else Option.none),
      (if filters.salary_match then
        (if job.matches_candidate_salary candidate.salary_expectation then
          Option.some (1, 1)
        else Option.none)
      else Option.none) ]

/-- Spec-side score: `Σ(component·weight) / Σ(weight)` over the criteria that
produced a component, and `0` when none did. -/
def specWeightedScore (job : Job) (candidate : Candidate) (filters : Filters) : ℚ :=
  let comps := specComponents job candidate filters
  if comps = [] then 0
  else (comps.map (fun p => p.1 * p.2)).sum / (comps.map Prod.snd).sum

/-- A seniority value used by the concrete examples. -/
def senEx : Seniority := ⟨.SENIOR⟩

/-- Example job for C1: two top skills, accepts `senior`. -/
def jobEx : Job := ⟨"j", [⟨"A"⟩, ⟨"B"⟩], [], [senEx], Option.none⟩

/-- Example candidate for C1: matches one of the two top skills, is `senior`. -/
def candEx : Candidate := ⟨"c", [⟨"a"⟩], [], Option.some senEx, Option.none⟩

/-- C5 counterexample job: its top-skill list holds the same skill twice in
different case. -/
def jobDup : Job := ⟨"j2", [⟨"Python"⟩, ⟨"python"⟩], [], [], Option.none⟩

/-- C4 counterexample job: no `max_salary`. -/
def jobNoSal : Job := ⟨"j1", [⟨"Python"⟩], [], [], Option.none⟩

/-- C9 counterexample document: an unrecognized seniority entry together with
a negative salary value. -/
def jobDocBad : JobDoc :=
  ⟨Option.some [], Option.some [], Option.some ["wizard"],
    Option.some (Option.some (-1))⟩

/-- C9 witness document. -/
def jobDocW : JobDoc :=
  ⟨Option.some ["Python"], Option.some [], Option.some ["senior"],
    Option.some (Option.some 50000)⟩

/-- C2 counterexample candidate: no salary expectation. -/
def candNoSal : Candidate := ⟨"c1", [], [], Option.none, Option.none⟩

/-- C9 witness candidate document. -/
def candDocW : CandidateDoc :=
  ⟨Option.some ["Python"], Option.some [], Option.none,
    Option.some (Option.some 60000)⟩

/-- Claim C1: `calculate_job_candidate_match` returns the weight-normalized
average `Σ(component·weight) / Σ(weight)` over exactly the criteria that
produced a component (skill always contributing its continuous score with
weight 2.0; seniority contributing 1.0 with weight 1.5 only when it matches;
salary contributing 1.0 with weight 1.0 only when it matches), 0 when no
component was produced; in particular a 0.5 skill match plus a matching
seniority under those two filters scores (0.5·2.0 + 1.0·1.5)/3.5 = 5/7. -/
theorem C1_weighted_average :
    (∀ (job : Job) (candidate : Candidate) (filters : Filters),
      calculate_job_candidate_match job candidate filters
        = specWeightedScore job candidate filters)
    ∧ jobEx.skill_match_score candEx.top_skills = 1/2
    ∧ calculate_job_candidate_match jobEx candEx ⟨false, true, true⟩ = 5/7 := by
  have hsk : jobEx.skill_match_score candEx.top_skills = 1/2 := by
    have h1 : skillInterCard jobEx.top_skills candEx.top_skills = 1 := by decide
    simp [Job.skill_match_score, h1, show jobEx.top_skills.length = 2 by decide,
      show jobEx.top_skills.isEmpty = false by decide,
      show candEx.top_skills.isEmpty = false by decide]
  refine ⟨?_, hsk, ?_⟩
  · intro j c f
    obtain ⟨fsal, fskill, fsen⟩ := f
    cases hsen : j.matches_candidate_seniority c.seniority <;>
      cases hsal : j.matches_candidate_salary c.salary_expectation <;>
        cases fsal <;> cases fskill <;> cases fsen <;>
          simp [calculate_job_candidate_match, specWeightedScore, specComponents,
            hsen, hsal, List.reduceOption]
  · have hsen : jobEx.matches_candidate_seniority candEx.seniority = true := by decide
    have hsal : jobEx.matches_candidate_salary candEx.salary_expectation = false := by decide
    simp [calculate_job_candidate_match, hsen, hsal, hsk]
    norm_num

/-- Claim C3: `MatchingApplicationService.find_matches` with all three filters
disabled fails with the validation error, for every source id, document type
and repository behavior — it never reaches the repositories, so it can return
neither a 0 score nor an ordinary empty list. -/
theorem C3_empty_filter_set :
    ∀ (jobMatcher candMatcher : String → Filters → Except String (List (String × ℚ)))
      (doc_id doc_type : String),
      find_matches jobMatcher candMatcher doc_id doc_type ⟨false, false, false⟩
        = Except.error "At least one filter must be enabled" := by
  intro jm cm i t
  rfl

/-- Claim C10: two candidates that differ only in `other_skills` receive the
same weighted match score from `calculate_job_candidate_match`, for every job
and filter set — the skill component reads only the candidate's `top_skills`. -/
theorem C10_other_skills_irrelevant :
    ∀ (j : Job) (c : Candidate) (f : Filters) (os : List Skill),
      calculate_job_candidate_match j { c with other_skills := os } f
        = calculate_job_candidate_match j c f := by
  intro j c f os
  rfl

/-- The set-intersection cardinality never exceeds the denominator list length. -/
theorem skillInterCard_le (A B : List Skill) : skillInterCard A B ≤ A.length := by
  unfold skillInterCard normNames
  calc ((A.map (fun s => lowerStr s.name)).dedup.filter
          (fun n => n ∈ (B.map (fun s => lowerStr s.name)).dedup)).length
      ≤ (A.map (fun s => lowerStr s.name)).dedup.length := List.length_filter_le _ _
    _ ≤ (A.map (fun s => lowerStr s.name)).length :=
        (List.dedup_sublist _).length_le
    _ = A.length := List.length_map _ _

/-- When `A` is duplicate-free (normalized) and every normalized name of `A`
occurs in `B`, the intersection has the full length of `A`. -/
theorem skillInterCard_eq_length (A B : List Skill)
    (hd : (normNames A).length = A.length)
    (hs : ∀ s ∈ A, lowerStr s.name ∈ normNames B) :
    skillInterCard A B = A.length := by
  unfold skillInterCard
  rw [List.filter_eq_self.mpr, hd]
  intro x hx
  rw [normNames, List.mem_dedup, List.mem_map] at hx
  obtain ⟨s, hsA, rfl⟩ := hx
  simpa using hs s hsA

/-- Bounds of the bare intersection-over-length ratio. -/
theorem ratio_core (A B : List Skill) (hA : A ≠ []) :
    0 ≤ (skillInterCard A B : ℚ) / (A.length : ℚ)
    ∧ (skillInterCard A B : ℚ) / (A.length : ℚ) ≤ 1
    ∧ ((normNames A).length = A.length →
        (∀ s ∈ A, lowerStr s.name ∈ normNames B) →
        (skillInterCard A B : ℚ) / (A.length : ℚ) = 1) := by
  have hlen : 0 < (A.length : ℚ) := by
    exact_mod_cast List.length_pos.mpr hA
  refine ⟨div_nonneg (Nat.cast_nonneg _) (Nat.cast_nonneg _), ?_, ?_⟩
  · rw [div_le_one hlen]
    exact_mod_cast skillInterCard_le A B
  · intro hd hs
    rw [skillInterCard_eq_length _ _ hd hs]
    exact div_self (ne_of_gt hlen)

/-- A nonempty list is not `isEmpty`. -/
theorem isEmpty_false_of_ne_nil {α : Type} {l : List α} (h : l ≠ []) :
    l.isEmpty = false := by
  cases l with
  | nil => exact absurd rfl h
  | cons a t => rfl

/-- Properties of `Job.skill_match_score`. -/
theorem job_score_props (job : Job) (B : List Skill) :
    0 ≤ job.skill_match_score B ∧ job.skill_match_score B ≤ 1
    ∧ (job.top_skills = [] → job.skill_match_score B = 0)
    ∧ ((normNames job.top_skills).length = job.top_skills.length →
        (∀ s ∈ job.top_skills, lowerStr s.name ∈ normNames B) →
        job.top_skills ≠ [] → job.skill_match_score B = 1) := by
  by_cases hA : job.top_skills = []
  · simp [Job.skill_match_score, hA]
  · by_cases hB : B = []
    · refine ⟨?_, ?_, fun he => absurd he hA, ?_⟩
      · simp [Job.skill_match_score, hB]
      · simp [Job.skill_match_score, hB]
      · intro hd hs _
        exfalso
        obtain ⟨s, hsA⟩ := List.exists_mem_of_ne_nil _ hA
        have := hs s hsA
        simp [hB, normNames] at this
    · have e : job.skill_match_score B
          = (skillInterCard job.top_skills B : ℚ) / (job.top_skills.length : ℚ) := by
        simp [Job.skill_match_score, isEmpty_false_of_ne_nil hA, isEmpty_false_of_ne_nil hB]
      obtain ⟨h0, h1, h2⟩ := ratio_core job.top_skills B hA
      exact ⟨e ▸ h0, e ▸ h1, fun he => absurd he hA, fun hd hs _ => e ▸ h2 hd hs⟩

/-- Properties of `Candidate.skill_match_score`. -/
theorem cand_score_props (c : Candidate) (A : List Skill) :
    0 ≤ c.skill_match_score A ∧ c.skill_match_score A ≤ 1
    ∧ (A = [] → c.skill_match_score A = 0)
    ∧ ((normNames A).length = A.length →
        (∀ s ∈ A, lowerStr s.name ∈ normNames (c.top_skills ++ c.other_skills)) →
        A ≠ [] → c.top_skills ≠ [] → c.skill_match_score A = 1) := by
  by_cases hA : A = []
  · simp [Candidate.skill_match_score, hA]
  · by_cases hT : c.top_skills = []
    · refine ⟨?_, ?_, fun he => absurd he hA, fun _ _ _ hT2 => absurd hT hT2⟩
      · simp [Candidate.skill_match_score, hT]
      · simp [Candidate.skill_match_score, hT]
    · have e : c.skill_match_score A
          = (skillInterCard A (c.top_skills ++ c.other_skills) : ℚ) / (A.length : ℚ) := by
        simp [Candidate.skill_match_score, isEmpty_false_of_ne_nil hA,
          isEmpty_false_of_ne_nil hT]
      obtain ⟨h0, h1, h2⟩ := ratio_core A (c.top_skills ++ c.other_skills) hA
      exact ⟨e ▸ h0, e ▸ h1, fun he => absurd he hA, fun hd hs _ _ => e ▸ h2 hd hs⟩

/-- Claim C5 counterexample: the top-skill list `[Python, python]` holds the
same skill twice in different case; every one of its skills is
case-insensitively contained in `[python]`, yet the score is 1/2, not 1 — the
numerator is a set cardinality while the denominator is the raw list length. -/
theorem C5_counterexample :
    (∀ s ∈ jobDup.top_skills, ∃ t ∈ [(⟨"python"⟩ : Skill)], skillEq s t = true)
    ∧ jobDup.skill_match_score [⟨"python"⟩] = 1/2
    ∧ ((1 : ℚ)/2 ≠ 1) := by
  refine ⟨by decide, ?_, by norm_num⟩
  have h1 : skillInterCard jobDup.top_skills [⟨"python"⟩] = 1 := by decide
  simp [Job.skill_match_score, h1, show jobDup.top_skills.length = 2 by decide,
    show jobDup.top_skills.isEmpty = false by decide]

/-- Claim C5 (amended): for both skill-score functions the result lies in
[0,1] and is 0 when the denominator-side list A is empty; it is 1 when A is
nonempty, has no case-insensitive duplicates, and every skill of A occurs
case-insensitively in the other side (the candidate-side function compares
against the candidate's combined `top + other` pool and additionally requires
a nonempty candidate `top_skills` list). -/
theorem C5_amended :
    (∀ (job : Job) (B : List Skill),
      0 ≤ job.skill_match_score B ∧ job.skill_match_score B ≤ 1
      ∧ (job.top_skills = [] → job.skill_match_score B = 0)
      ∧ ((normNames job.top_skills).length = job.top_skills.length →
          (∀ s ∈ job.top_skills, lowerStr s.name ∈ normNames B) →
          job.top_skills ≠ [] → job.skill_match_score B = 1))
    ∧ (∀ (c : Candidate) (A : List Skill),
      0 ≤ c.skill_match_score A ∧ c.skill_match_score A ≤ 1
      ∧ (A = [] → c.skill_match_score A = 0)
      ∧ ((normNames A).length = A.length →
          (∀ s ∈ A, lowerStr s.name ∈ normNames (c.top_skills ++ c.other_skills)) →
          A ≠ [] → c.top_skills ≠ [] → c.skill_match_score A = 1)) :=
  ⟨fun job B => job_score_props job B, fun c A => cand_score_props c A⟩

/-- Claim C5 witness: the amended theorem applied at a concrete duplicate-free
job whose single top skill occurs (in different case) in the candidate list. -/
theorem C5_amended_witness :
    Job.skill_match_score ⟨"j", [⟨"Go"⟩], [], [], Option.none⟩ [⟨"go"⟩] = 1 :=
  (C5_amended.1 ⟨"j", [⟨"Go"⟩], [], [], Option.none⟩ [⟨"go"⟩]).2.2.2
    (by decide) (by decide) (by decide)

/-- Skill lists whose names satisfy the constructor normalization (stripped,
nonempty) are reconstructed exactly by `mkSkills` from their name strings. -/
theorem mkSkills_roundtrip (l : List Skill)
    (h : ∀ sk ∈ l, stripStr sk.name = sk.name ∧ sk.name ≠ "") :
    mkSkills (l.map Skill.name) = Except.ok l := by
  induction l with
  | nil => rfl
  | cons sk rest ih =>
    obtain ⟨h1, h2⟩ := h sk (List.mem_cons_self _ _)
    have hmk : mkSkill sk.name = Except.ok sk := by
      rw [mkSkill, h1, if_neg h2]
    have hrest := ih (fun s hs => h s (List.mem_cons_of_mem _ hs))
    simp [mkSkills, hmk, hrest]
    rfl

/-- Parsing the `value` string of a seniority level succeeds and returns it. -/
theorem fromString_value (sen : Seniority) :
    (Seniority.fromString sen.level.value).toOption = Option.some sen := by
  obtain ⟨l⟩ := sen
  cases l <;> decide

/-- Serializing and re-parsing a seniority list is the identity. -/
theorem seniorities_roundtrip (l : List Seniority) :
    l.filterMap (fun s => (Seniority.fromString s.level.value).toOption) = l := by
  induction l with
  | nil => rfl
  | cons sen rest ih =>
    simp [List.filterMap_cons, fromString_value, ih]

/-- A non-negative salary value is reconstructed by `mkSalary`. -/
theorem mkSalary_ok (sal : Salary) (h : 0 ≤ sal.value) :
    mkSalary sal.value = Except.ok sal := by
  rw [mkSalary, if_neg (not_lt.mpr h)]

/-- Round trip for a job whose `max_salary` is present. -/
theorem job_roundtrip (job : Job) (sal : Salary)
    (hms : job.max_salary = Option.some sal)
    (hsk : ∀ sk ∈ job.top_skills ++ job.other_skills,
      stripStr sk.name = sk.name ∧ sk.name ≠ "")
    (h0 : 0 ≤ sal.value) :
    JobMapper.to_domain job.id (JobMapper.to_document job) = Except.ok job := by
  have ht := mkSkills_roundtrip job.top_skills
    (fun s hs => hsk s (List.mem_append_left _ hs))
  have ho := mkSkills_roundtrip job.other_skills
    (fun s hs => hsk s (List.mem_append_right _ hs))
  obtain ⟨jid, jtop, jother, jsens, jsal⟩ := job
  simp only [] at ht ho hms
  subst hms
  simp [JobMapper.to_domain, JobMapper.to_document, ht, ho, Function.comp_def,
    seniorities_roundtrip, salaryFromField, mkSalary_ok sal h0]
  rfl

/-- Round trip for a candidate whose `seniority` and `salary_expectation` are
present. -/
theorem candidate_roundtrip (c : Candidate) (sal : Salary) (sen : Seniority)
    (hms : c.salary_expectation = Option.some sal)
    (hsen : c.seniority = Option.some sen)
    (hsk : ∀ sk ∈ c.top_skills ++ c.other_skills,
      stripStr sk.name = sk.name ∧ sk.name ≠ "")
    (h0 : 0 ≤ sal.value) :
    CandidateMapper.to_domain c.id (CandidateMapper.to_document c) = Except.ok c := by
  have ht := mkSkills_roundtrip c.top_skills
    (fun s hs => hsk s (List.mem_append_left _ hs))
  have ho := mkSkills_roundtrip c.other_skills
    (fun s hs => hsk s (List.mem_append_right _ hs))
  obtain ⟨cid, ctop, cother, csen, csal⟩ := c
  simp only [] at ht ho hms hsen
  subst hms
  subst hsen
  simp [CandidateMapper.to_domain, CandidateMapper.to_document, ht, ho,
    fromString_value, salaryFromField, mkSalary_ok sal h0]
  rfl

/-- Claim C4 counterexample: a job without `max_salary` does not round-trip —
`to_document` emits the key with a null value, and `to_domain` then evaluates
`Salary(None)`, whose `None < 0` comparison raises a `TypeError` instead of
reconstructing the entity. -/
theorem C4_counterexample :
    JobMapper.to_domain jobNoSal.id (JobMapper.to_document jobNoSal)
      = Except.error "TypeError: not supported between instances of NoneType and int" := by
  decide

/-- Claim C4 (amended): `to_domain ∘ to_document` (keeping the same id)
reconstructs the entity exactly for every Job whose `max_salary` is present
and every Candidate whose `seniority` and `salary_expectation` are present
(fields satisfying their constructor invariants); entities with those optional
fields absent instead make the conversion raise, because the emitted document
holds the key with a null value. -/
theorem C4_amended :
    (∀ (job : Job) (sal : Salary), job.max_salary = Option.some sal →
      (∀ sk ∈ job.top_skills ++ job.other_skills,
        stripStr sk.name = sk.name ∧ sk.name ≠ "") →
      0 ≤ sal.value →
      JobMapper.to_domain job.id (JobMapper.to_document job) = Except.ok job)
    ∧ (∀ (c : Candidate) (sal : Salary) (sen : Seniority),
      c.salary_expectation = Option.some sal → c.seniority = Option.some sen →
      (∀ sk ∈ c.top_skills ++ c.other_skills,
        stripStr sk.name = sk.name ∧ sk.name ≠ "") →
      0 ≤ sal.value →
      CandidateMapper.to_domain c.id (CandidateMapper.to_document c) = Except.ok c) :=
  ⟨fun job sal hms hsk h0 => job_roundtrip job sal hms hsk h0,
   fun c sal sen hms hsen hsk h0 => candidate_roundtrip c sal sen hms hsen hsk h0⟩

/-- Claim C4 witness: the amended round trip at a concrete job and candidate
with all fields present. -/
theorem C4_amended_witness :
    JobMapper.to_domain "jw"
        (JobMapper.to_document ⟨"jw", [⟨"Python"⟩], [⟨"Go"⟩], [⟨.SENIOR⟩],
          Option.some ⟨70000⟩⟩)
      = Except.ok ⟨"jw", [⟨"Python"⟩], [⟨"Go"⟩], [⟨.SENIOR⟩], Option.some ⟨70000⟩⟩
    ∧ CandidateMapper.to_domain "cw"
        (CandidateMapper.to_document ⟨"cw", [⟨"Python"⟩], [], Option.some ⟨.SENIOR⟩,
          Option.some ⟨65000⟩⟩)
      = Except.ok ⟨"cw", [⟨"Python"⟩], [], Option.some ⟨.SENIOR⟩, Option.some ⟨65000⟩⟩ :=
  ⟨C4_amended.1 ⟨"jw", [⟨"Python"⟩], [⟨"Go"⟩], [⟨.SENIOR⟩], Option.some ⟨70000⟩⟩
      ⟨70000⟩ rfl (by decide) (by decide),
   C4_amended.2 ⟨"cw", [⟨"Python"⟩], [], Option.some ⟨.SENIOR⟩, Option.some ⟨65000⟩⟩
      ⟨65000⟩ ⟨.SENIOR⟩ rfl rfl (by decide) (by decide)⟩

/-- Dropping behavior of the job mapper: an unrecognized seniority entry is
invisible to the conversion result. -/
theorem jobdoc_seniority_skip (id : String) (doc : JobDoc) (pre post : List String)
    (w : String) (h : (Seniority.fromString w).toOption = Option.none) :
    JobMapper.to_domain id { doc with seniorities := Option.some (pre ++ w :: post) }
      = JobMapper.to_domain id { doc with seniorities := Option.some (pre ++ post) } := by
  simp [JobMapper.to_domain, List.filterMap_append, List.filterMap_cons, h]

/-- Dropping behavior of the candidate mapper: an unrecognized seniority string
is equivalent to an absent seniority key. -/
theorem candidatedoc_seniority_skip (id : String) (doc : CandidateDoc) (w : String)
    (h : (Seniority.fromString w).toOption = Option.none) :
    CandidateMapper.to_domain id { doc with seniority := Option.some (Option.some w) }
      = CandidateMapper.to_domain id { doc with seniority := Option.none } := by
  simp [CandidateMapper.to_domain, h]

/-- Claim C9 counterexample: a document whose seniority data holds the
unrecognized string "wizard" but whose salary value is negative — conversion
fails with the salary `ValueError` rather than succeeding, so the claim's
unconditional "conversion succeeds" is false. -/
theorem C9_counterexample :
    jobDocBad.seniorities = Option.some ["wizard"]
    ∧ (Seniority.fromString "wizard").toOption = Option.none
    ∧ JobMapper.to_domain "j" jobDocBad = Except.error "Salary cannot be negative" := by
  refine ⟨rfl, by decide, by decide⟩

/-- Claim C9 (amended): an unrecognized seniority entry never itself causes
document-to-entity conversion to fail and never affects any other converted
field — the conversion result is exactly the one for the document with the
entry removed (job) or with the seniority key absent (candidate); in
particular, when the rest of the document is valid, conversion succeeds with
the entry dropped. -/
theorem C9_amended :
    (∀ (id : String) (doc : JobDoc) (pre post : List String) (w : String),
      (Seniority.fromString w).toOption = Option.none →
      JobMapper.to_domain id { doc with seniorities := Option.some (pre ++ w :: post) }
        = JobMapper.to_domain id { doc with seniorities := Option.some (pre ++ post) })
    ∧ (∀ (id : String) (doc : CandidateDoc) (w : String),
      (Seniority.fromString w).toOption = Option.none →
      CandidateMapper.to_domain id { doc with seniority := Option.some (Option.some w) }
        = CandidateMapper.to_domain id { doc with seniority := Option.none }) :=
  ⟨fun id doc pre post w h => jobdoc_seniority_skip id doc pre post w h,
   fun id doc w h => candidatedoc_seniority_skip id doc w h⟩

/-- Claim C9 witness: the amended equivalence at concrete documents and the
unrecognized entry "wizard". -/
theorem C9_amended_witness :
    JobMapper.to_domain "j" { jobDocW with seniorities := Option.some ["wizard", "senior"] }
      = JobMapper.to_domain "j" { jobDocW with seniorities := Option.some ["senior"] }
    ∧ CandidateMapper.to_domain "c" { candDocW with seniority := Option.some (Option.some "wizard") }
      = CandidateMapper.to_domain "c" { candDocW with seniority := Option.none } :=
  ⟨C9_amended.1 "j" jobDocW [] ["senior"] "wizard" (by decide),
   C9_amended.2 "c" candDocW "wizard" (by decide)⟩

/-- The service-path salary clause builder fails on a job document without the
salary key. -/
theorem salary_query_job_missing (doc : JobDoc) (h : doc.max_salary = Option.none) :
    buildSalaryQueryFromJobDoc doc
      = Except.error "Missing required salary field: max_salary" := by
  simp [buildSalaryQueryFromJobDoc, h]

/-- The service-path salary clause builder fails on a candidate document
without the salary key. -/
theorem salary_query_cand_missing (doc : CandidateDoc)
    (h : doc.salary_expectation = Option.none) :
    buildSalaryQueryFromCandidateDoc doc
      = Except.error "Missing required salary field: salary_expectation" := by
  simp [buildSalaryQueryFromCandidateDoc, h]

/-- In the repository path, a candidate without a salary expectation yields no
salary (range) clause at all — the clause is skipped, not failed. -/
theorem cand_queries_no_range (c : Candidate) (f : Filters)
    (h : c.salary_expectation = Option.none) :
    ∀ q ∈ candidateShouldQueries c f, q.isRange = false := by
  intro q
  obtain ⟨fsal, fsk, fsen⟩ := f
  cases fsal <;> cases fsk <;> cases fsen <;>
    cases e : c.top_skills.isEmpty <;>
      cases hsen : c.seniority <;>
        (intro hq
         simp [candidateShouldQueries, h, e, hsen] at hq
         try first
           | (rcases hq with rfl | rfl <;> rfl)
           | (rcases hq with rfl; rfl))

/-- In the repository path, a job without a max salary yields no salary
(range) clause at all. -/
theorem job_queries_no_range (j : Job) (f : Filters)
    (h : j.max_salary = Option.none) :
    ∀ q ∈ jobShouldQueries j f, q.isRange = false := by
  intro q
  obtain ⟨fsal, fsk, fsen⟩ := f
  cases fsal <;> cases fsk <;> cases fsen <;>
    cases e : j.top_skills.isEmpty <;>
      cases hsen : j.seniorities.isEmpty <;>
        (intro hq
         simp [jobShouldQueries, h, e, hsen] at hq
         try first
           | (rcases hq with rfl | rfl <;> rfl)
           | (rcases hq with rfl; rfl))

/-- Claim C2 counterexample: in the repository path actually used by the match
operation, a candidate with no salary expectation and only the salary filter
enabled produces no `ValueError` — query construction silently builds zero
clauses and the operation returns an ordinary empty result list. -/
theorem C2_counterexample :
    find_matches_for_candidate (fun _ => Option.some candNoSal) (fun _ => [])
        "c1" ⟨true, false, false⟩ = Except.ok []
    ∧ candidateShouldQueries candNoSal ⟨true, false, false⟩ = [] := by
  constructor <;> decide

/-- Claim C2 (amended): only the `ElasticsearchService` query path fails with
a `ValueError` when the enabled salary filter finds no salary field on the
source document; the repository query path used by the match operation instead
silently skips the clause — it never builds a salary (range) clause from a
source lacking the field, and in particular never one with a null bound. -/
theorem C2_amended :
    (∀ doc : JobDoc, doc.max_salary = Option.none →
      buildSalaryQueryFromJobDoc doc
        = Except.error "Missing required salary field: max_salary")
    ∧ (∀ doc : CandidateDoc, doc.salary_expectation = Option.none →
      buildSalaryQueryFromCandidateDoc doc
        = Except.error "Missing required salary field: salary_expectation")
    ∧ (∀ (c : Candidate) (f : Filters), c.salary_expectation = Option.none →
      ∀ q ∈ candidateShouldQueries c f, q.isRange = false)
    ∧ (∀ (j : Job) (f : Filters), j.max_salary = Option.none →
      ∀ q ∈ jobShouldQueries j f, q.isRange = false) :=
  ⟨fun doc h => salary_query_job_missing doc h,
   fun doc h => salary_query_cand_missing doc h,
   fun c f h => cand_queries_no_range c f h,
   fun j f h => job_queries_no_range j f h⟩

/-- Claim C2 witness: the amended statement applied at concrete documents
without salary fields and at concrete repository-path clause lists. -/
theorem C2_amended_witness :
    buildSalaryQueryFromJobDoc
        ⟨Option.some ["Python"], Option.some [], Option.some [], Option.none⟩
      = Except.error "Missing required salary field: max_salary"
    ∧ buildSalaryQueryFromCandidateDoc
        ⟨Option.some ["Python"], Option.some [], Option.none, Option.none⟩
      = Except.error "Missing required salary field: salary_expectation"
    ∧ Clause.isRange (Clause.terms "top_skills" ["Python", "Go"]
        FILTER_CONFIGS_top_skill_weight (Option.some 2)) = false
    ∧ Clause.isRange (Clause.terms "seniority" ["senior"]
        FILTER_CONFIGS_seniority_weight Option.none) = false :=
  ⟨C2_amended.1 _ rfl, C2_amended.2.1 _ rfl,
   C2_amended.2.2.1 ⟨"cx", [⟨"Python"⟩, ⟨"Go"⟩], [], Option.some ⟨.SENIOR⟩, Option.none⟩
     ⟨true, true, true⟩ rfl _ (List.mem_cons_self _ _),
   C2_amended.2.2.2 ⟨"jx", [], [], [⟨.SENIOR⟩], Option.none⟩
     ⟨true, true, true⟩ rfl _ (List.mem_cons_self _ _)⟩

/-- Claim C6: for every nonempty source top-skill list, the skill clause's
minimum-match threshold is `min(|sourceTopSkills|, MIN_MATCHING_SKILLS)` with
`MIN_MATCHING_SKILLS = 2`: never above the number of source top skills, and
exactly 2 as soon as at least 2 are available; the repository-path clause
carries the same threshold. -/
theorem C6_min_matching_skills :
    ∀ ts : List String, ts ≠ [] →
      buildSkillsQuery ts = Except.ok (Clause.terms "top_skills" ts
        FILTER_CONFIGS_top_skill_weight
        (Option.some (min ts.length MIN_MATCHING_SKILLS)))
      ∧ MIN_MATCHING_SKILLS = 2
      ∧ min ts.length MIN_MATCHING_SKILLS ≤ ts.length
      ∧ (2 ≤ ts.length → min ts.length MIN_MATCHING_SKILLS = 2)
      ∧ (∀ c : Candidate, c.top_skills.map Skill.name = ts →
          Clause.terms "top_skills" ts FILTER_CONFIGS_top_skill_weight
            (Option.some (min ts.length MIN_MATCHING_SKILLS))
          ∈ candidateShouldQueries c ⟨false, true, false⟩) := by
  intro ts hne
  have hisE : ts.isEmpty = false := isEmpty_false_of_ne_nil hne
  refine ⟨?_, rfl, Nat.min_le_left _ _, fun h2 => Nat.min_eq_right h2, ?_⟩
  · simp [buildSkillsQuery, hisE]
  · intro c hmap
    have hc : c.top_skills.isEmpty = false := by
      apply isEmpty_false_of_ne_nil
      intro h0
      rw [h0] at hmap
      exact hne hmap.symm
    simp [candidateShouldQueries, hc, hmap]

/-- Claim C6 witness: the threshold at a one-skill and a three-skill source. -/
theorem C6_witness :
    buildSkillsQuery ["a", "b", "c"] = Except.ok (Clause.terms "top_skills"
      ["a", "b", "c"] FILTER_CONFIGS_top_skill_weight (Option.some 2))
    ∧ buildSkillsQuery ["a"] = Except.ok (Clause.terms "top_skills"
      ["a"] FILTER_CONFIGS_top_skill_weight (Option.some 1)) :=
  ⟨(C6_min_matching_skills ["a", "b", "c"] (by decide)).1,
   (C6_min_matching_skills ["a"] (by decide)).1⟩

/-- Claim C7: two successfully constructed Skills are equal exactly when their
stripped names agree case-insensitively, and equal skills have equal hash
keys (the Python hash is a function of `name.lower()`). -/
theorem C7_skill_equality :
    ∀ (s t : String) (a b : Skill),
      mkSkill s = Except.ok a → mkSkill t = Except.ok b →
      ((skillEq a b = true) ↔ lowerStr (stripStr s) = lowerStr (stripStr t))
      ∧ (skillEq a b = true → skillHashKey a = skillHashKey b) := by
  intro s t a b ha hb
  have ha' : a = ⟨stripStr s⟩ := by
    unfold mkSkill at ha
    split at ha
    · exact absurd ha (by simp)
    · exact (Except.ok.inj ha).symm
  have hb' : b = ⟨stripStr t⟩ := by
    unfold mkSkill at hb
    split at hb
    · exact absurd hb (by simp)
    · exact (Except.ok.inj hb).symm
  subst ha'
  subst hb'
  constructor
  · simp [skillEq]
  · intro h
    simp [skillEq] at h
    simp [skillHashKey, h]

/-- Claim C7 witness: `Skill("Python")`, `Skill("python")` and
`Skill(" Python ")` are pairwise equal with equal hash keys. -/
theorem C7_witness :
    skillEq ⟨"Python"⟩ ⟨"python"⟩ = true
    ∧ skillHashKey (⟨"Python"⟩ : Skill) = skillHashKey (⟨"python"⟩ : Skill) :=
  have h := C7_skill_equality "Python" " python " ⟨"Python"⟩ ⟨"python"⟩
    (by decide) (by decide)
  ⟨h.1.mpr (by decide), h.2 (h.1.mpr (by decide))⟩

/-- Claim C8: value-object construction contract — `Salary(v)` fails exactly
when `v < 0`, `Skill(s)` fails exactly when the stripped name is empty, and
`Seniority.from_string(s)` fails exactly when the lowercased string is not a
recognized level, with an error message listing the valid values. -/
theorem C8_construction_contract :
    (∀ v : Int, (0 ≤ v → mkSalary v = Except.ok ⟨v⟩)
      ∧ (v < 0 → mkSalary v = Except.error "Salary cannot be negative"))
    ∧ (∀ s : String,
      (stripStr s = "" → mkSkill s = Except.error "Skill name cannot be empty")
      ∧ (stripStr s ≠ "" → mkSkill s = Except.ok ⟨stripStr s⟩))
    ∧ (∀ s : String,
      ((∃ sen, Seniority.fromString s = Except.ok sen)
        ↔ lowerStr s ∈ VALID_SENIORITIES)
      ∧ (lowerStr s ∉ VALID_SENIORITIES →
        Seniority.fromString s = Except.error ("Invalid seniority level: " ++ s
          ++ ". Valid levels are: " ++ String.intercalate ", " VALID_SENIORITIES))) := by
  have hv : VALID_SENIORITIES = SeniorityLevel.all.map SeniorityLevel.value := rfl
  refine ⟨fun v => ⟨?_, ?_⟩, fun s => ⟨?_, ?_⟩, fun s => ⟨⟨?_, ?_⟩, ?_⟩⟩
  · intro h; rw [mkSalary, if_neg (not_lt.mpr h)]
  · intro h; rw [mkSalary, if_pos h]
  · intro h; rw [mkSkill, if_pos h]
  · intro h; rw [mkSkill, if_neg h]
  · rintro ⟨sen, hok⟩
    unfold Seniority.fromString at hok
    cases hf : SeniorityLevel.all.find? (fun l => l.value == lowerStr s) with
    | none => rw [hf] at hok; exact absurd hok (by simp)
    | some l =>
      have hbeq := List.find?_some hf
      have hm := List.mem_of_find?_eq_some hf
      rw [hv]
      exact List.mem_map.mpr ⟨l, hm, by simpa using hbeq⟩
  · intro hmem
    rw [hv] at hmem
    obtain ⟨l, hl, hlv⟩ := List.mem_map.mp hmem
    unfold Seniority.fromString
    cases hf : SeniorityLevel.all.find? (fun l => l.value == lowerStr s) with
    | none =>
      exfalso
      exact absurd (by simp [hlv] : (fun x => x.value == lowerStr s) l = true)
        (by simpa using List.find?_eq_none.mp hf l hl)
    | some l2 => exact ⟨⟨l2⟩, rfl⟩
  · intro hnot
    unfold Seniority.fromString
    cases hf : SeniorityLevel.all.find? (fun l => l.value == lowerStr s) with
    | some l =>
      exfalso
      apply hnot
      rw [hv]
      exact List.mem_map.mpr ⟨l, List.mem_of_find?_eq_some hf,
        by simpa using List.find?_some hf⟩
    | none => rfl

/-- Claim C8 witness: `Salary(-1)` fails, `Salary(0)` succeeds, a whitespace
skill name fails, a padded name is stripped, an unrecognized seniority fails
with the listing message, and a recognized one (case-insensitively) succeeds. -/
theorem C8_witness :
    mkSalary (-1) = Except.error "Salary cannot be negative"
    ∧ mkSalary 0 = Except.ok ⟨0⟩
    ∧ mkSkill "   " = Except.error "Skill name cannot be empty"
    ∧ mkSkill " Python " = Except.ok ⟨"Python"⟩
    ∧ Seniority.fromString "wizard" = Except.error
        "Invalid seniority level: wizard. Valid levels are: none, junior, midlevel, senior, lead, principal"
    ∧ (∃ sen, Seniority.fromString "Senior" = Except.ok sen) :=
  ⟨(C8_construction_contract.1 (-1)).2 (by decide),
   (C8_construction_contract.1 0).1 (by decide),
   (C8_construction_contract.2.1 "   ").1 (by decide),
   (C8_construction_contract.2.1 " Python ").2 (by decide),
   (C8_construction_contract.2.2 "wizard").2 (by decide),
   (C8_construction_contract.2.2 "Senior").1.mpr (by decide)⟩

end Instaffo
